import Mathlib

/-!
Verification of the letsfocus generative-audio engine
(`src/js/audio/profileEngine.js`, `src/js/audio/soundProfiles.js`).

The JavaScript code is shallowly embedded: the module-level mutable state
(`currentEngine`, `audioInitialized`, `Tone.Transport`) becomes an explicit
`Session` record threaded through the operations; the async fallible steps
(`Tone.start()`, `reverbNode.generate()`, each variant's `start()`) become
explicit outcome parameters, and a rejected promise becomes `Except.error`.
Numeric audio parameters (volumes, frequencies) are carried only where a
claim depends on them; where only JS truthiness of an option matters the
option is kept as `Option Int` with a `truthy` test mirroring `if (x)`.
-/

namespace LetsFocus

/-! ## Signal Chain Builder (`createMasterChain`) -/

/-- JS truthiness of an optional numeric option (`if (highPass) ...`). -/
def truthy : Option Int → Bool
  | none => false
  | some v => v != 0

/-- Options record of `createMasterChain(options)`.  JS defaults:
`reverb = 1.5`, `delay = null`, `highPass = null`, `lowPass = null`,
`bitCrush = null`, `limiterThreshold = -2`.  `delay` is an object-valued
option in JS, so only its truthiness is modelled; `limiterThreshold` and the
reverb decay are opaque constructor arguments that no claim inspects and are
elided. -/
structure ChainOptions where
  delay : Bool := false
  highPass : Option Int := none
  lowPass : Option Int := none
  bitCrush : Option Int := none
deriving DecidableEq, Repr

/-- Kind of audio primitive created by the Builder. -/
inductive NodeKind
  | limiter
  | highpass
  | lowpass
  | bitCrusher
  | reverb
  | pingPongDelay
deriving DecidableEq, Repr

/-- Where a created primitive's `.connect(...)` / `.toDestination()` call
points: the shared output destination, or an earlier created node
(identified by its creation index). -/
inductive ConnTarget
  | destination
  | node (i : Nat)
deriving DecidableEq, Repr

/-- One primitive instantiated during a build: creation index, kind, and
the node it was connected into. -/
structure ChainNode where
  idx : Nat
  kind : NodeKind
  target : ConnTarget
deriving DecidableEq, Repr

/-- The object returned by `createMasterChain` on success:
`{ components, connect, limiter, reverb, delay }` (node fields as creation
indices). -/
structure MasterChainHandle where
  components : List ChainNode
  connect : Nat
  limiter : Nat
  reverb : Nat
  delay : Option Nat
deriving DecidableEq, Repr

instance : Inhabited MasterChainHandle := ⟨⟨[], 0, 0, 0, none⟩⟩

/-- Result of one run of the Builder.  `created` lists every primitive
instantiated during the build in creation order (on failure this includes
the reverb node, which is constructed and connected before `generate()` is
awaited).  `released` records which created primitives the Builder disposed
before letting an error propagate — the JS function has no try/catch or
cleanup, so this is always `[]`.  `handle` is `some` exactly when the build
completed (the promise resolved). -/
structure ChainBuild where
  created : List ChainNode
  released : List Nat
  reverbGenerated : Bool
  handle : Option MasterChainHandle
deriving DecidableEq, Repr

/-- Accumulator while the Builder walks its fixed construction order:
components so far, current `outputNode` (creation index), next index. -/
structure BuildAcc where
  comps : List ChainNode
  out : Nat
  n : Nat
deriving DecidableEq, Repr

/-- Embedding of `new Tone.X(...).connect(outputNode)` followed by
`components.push(x); outputNode = x`. -/
def pushNode (k : NodeKind) (a : BuildAcc) : BuildAcc :=
  { comps := a.comps ++ [⟨a.n, k, ConnTarget.node a.out⟩], out := a.n, n := a.n + 1 }

/-- One optional step of the chain (`if (opt) { ... }`). -/
def stepIf (b : Bool) (k : NodeKind) (a : BuildAcc) : BuildAcc :=
  if b then pushNode k a else a

/-- Shallow embedding of `createMasterChain` (profileEngine.js:29-87).
Construction order as in the source: limiter (`.toDestination()`), then the
optional high-pass, low-pass and bit-crusher each connected to the current
`outputNode`, then the reverb connected likewise; `await reverbNode.generate()`
is the only suspend point and its outcome is the `reverbGenOk` parameter —
on rejection the error propagates with no handle and no cleanup; on success
the optional ping-pong delay is connected to `reverbNode` and the handle is
returned. -/
def createMasterChain (opts : ChainOptions) (reverbGenOk : Bool) : ChainBuild :=
  let a0 : BuildAcc := ⟨[⟨0, NodeKind.limiter, ConnTarget.destination⟩], 0, 1⟩
  let a1 := stepIf (truthy opts.highPass) NodeKind.highpass a0
  let a2 := stepIf (truthy opts.lowPass) NodeKind.lowpass a1
  let a3 := stepIf (truthy opts.bitCrush) NodeKind.bitCrusher a2
  let reverbIdx := a3.n
  let reverbNode : ChainNode := ⟨reverbIdx, NodeKind.reverb, ConnTarget.node a3.out⟩
  if reverbGenOk = false then
    { created := a3.comps ++ [reverbNode], released := [],
      reverbGenerated := false, handle := none }
  else
    let a4 : BuildAcc := ⟨a3.comps ++ [reverbNode], reverbIdx, reverbIdx + 1⟩
    let delayIdx : Option Nat := if opts.delay then some a4.n else none
    let a5 := stepIf opts.delay NodeKind.pingPongDelay a4
    { created := a5.comps, released := [], reverbGenerated := true,
      handle := some { components := a5.comps, connect := a5.out,
                       limiter := 0, reverb := reverbIdx, delay := delayIdx } }

/-- The handle of a successful build (used to state topology facts). -/
def handleOf (opts : ChainOptions) : MasterChainHandle :=
  (createMasterChain opts true).handle.getD default

/-- Created node with a given creation index. -/
def nodeAt (b : ChainBuild) (i : Nat) : Option ChainNode :=
  b.created.find? (fun nd => nd.idx == i)

/-! ## Profile catalog (`soundProfiles.js`) -/

/-- The slice of a profile's `config` record the engine lifecycle and the
scientific engine's scheduler read: `config.type` (variant dispatch tag)
and `config.primeIntervals` (used as `config.primeIntervals || [17,19,23,29,31]`
by `ScientificFocusEngine.start`).  The other config fields are acoustic
tuning parameters consumed opaquely by variant constructors. -/
structure Config where
  type : String
  primeIntervals : Option (List Nat) := none
deriving DecidableEq, Repr

/-- A catalog profile: `id` and `config` (the display-only `name`,
`description` and `icon` fields play no role in the engine). -/
structure Profile where
  id : String
  config : Config
deriving DecidableEq, Repr

/-- Keys of the `ENGINE_TYPES` registry (profileEngine.js:1046-1055). -/
def ENGINE_TYPES : List String :=
  ["generative", "scientific", "binaural", "noise", "rain", "forest", "lofi", "minimal"]

/-- Entry `SOUND_PROFILES.SCIENCE_FOCUS` (soundProfiles.js:32-57). -/
def SCIENCE_FOCUS : Profile :=
  { id := "science_focus",
    config := { type := "scientific", primeIntervals := some [17, 19, 23, 29, 31] } }

/-- The 10 entries of `SOUND_PROFILES` in declaration order
(soundProfiles.js:15-226). -/
def SOUND_PROFILES : List Profile :=
  [SCIENCE_FOCUS,
   { id := "deep_focus", config := { type := "generative" } },
   { id := "binaural_alpha", config := { type := "binaural" } },
   { id := "binaural_beta", config := { type := "binaural" } },
   { id := "brown_noise", config := { type := "noise" } },
   { id := "white_noise", config := { type := "noise" } },
   { id := "rain", config := { type := "rain" } },
   { id := "lofi", config := { type := "lofi" } },
   { id := "minimal", config := { type := "minimal" } },
   { id := "forest", config := { type := "forest" } }]

/-! ## Scientific engine phasing schedule (`ScientificFocusEngine.start`) -/

/-- Embedding of `const primeIntervals = config.primeIntervals || [17, 19, 23, 29, 31];`
(profileEngine.js:934). -/
def scientificIntervals (cfg : Config) : List Nat :=
  cfg.primeIntervals.getD [17, 19, 23, 29, 31]

/-- Period of phasing generator `i`: `primeIntervals.forEach((intervalSeconds,
index) => ... new Tone.Loop(..., intervalSeconds))` (profileEngine.js:958-992). -/
def phasingPeriod (cfg : Config) (i : Nat) : Nat :=
  (scientificIntervals cfg).getD i 0

/-- Start offset of phasing generator `i`: `loop.start(index * 2)`
(profileEngine.js:994). -/
def phasingOffset (i : Nat) : Nat := i * 2

/-- The `k`-th scheduled trigger time of phasing generator `i` (seconds): a
Tone.Loop started at offset `o` with interval `p` fires at `o + k*p`. -/
def triggerTime (cfg : Config) (i k : Nat) : Nat :=
  phasingOffset i + k * phasingPeriod cfg i

/-! ## Sound programs (`SoundEngine` base class) and Transport -/

/-- One owned audio primitive held in a program's `components` list.  `id`
stands for the JS object identity; `running` is cleared by
`comp.stop()`/`releaseAll()`; `disposed` is set by `comp.dispose()`. -/
structure Component where
  id : Nat
  running : Bool := true
  disposed : Bool := false
deriving DecidableEq, Repr

/-- The shared `Tone.Transport` singleton: whether it is started, the
scheduled-generator registrations still pending (as loop ids), and its
position.  `Transport.cancel()` clears all pending registrations;
`loop.stop(); loop.cancel()` removes just that loop's. -/
structure Transport where
  started : Bool
  pending : List Nat
  position : Nat
deriving DecidableEq, Repr

/-- Mutable state of one `SoundEngine` instance: the variant tag it was
constructed with, and the `components`/`loops` lists populated by
`start()`.  Loops are identified by the ids they are registered under on
the Transport. -/
structure SoundEngine where
  typ : String
  components : List Component
  loops : List Nat
deriving DecidableEq, Repr

/-- Embedding of `SoundEngine.stop` (profileEngine.js:103-114):
`loops.forEach(l => { l.stop(); l.cancel(); })` unschedules each loop from
the transport; `components.forEach(c => { c.releaseAll?.(); c.stop?.(); })`
silences each component.  Neither list is modified and nothing is disposed. -/
def SoundEngine.stop (e : SoundEngine) (t : Transport) : SoundEngine × Transport :=
  ({ e with components := e.components.map (fun c => { c with running := false }) },
   { t with pending := t.pending.filter (fun l => !(e.loops.contains l)) })

/-- Embedding of `SoundEngine.dispose` (profileEngine.js:116-123): `this.stop()`, then
`this.loops = []`, `components.forEach(c => c.dispose?.())`,
`this.components = []`. -/
def SoundEngine.dispose (e : SoundEngine) (t : Transport) : SoundEngine × Transport :=
  let r := SoundEngine.stop e t
  ({ r.1 with loops := [], components := [] }, r.2)

/-! ## Engine Lifecycle Manager (module state and exported operations) -/

/-- Event log entries (verification instrumentation): a `dispose()` call on
a program, and the assignment `currentEngine = new EngineClass(config)`. -/
inductive Ev
  | disposeCall (pid : Nat)
  | install (pid : Nat)
deriving DecidableEq, Repr

/-- The module-level mutable state of profileEngine.js: `currentEngine`
(as the id of the active program), `audioInitialized`, the shared
`Tone.Transport`, plus verification bookkeeping: the store of every program
instance ever created (`progs`, total map from id) and the event log. -/
structure Session where
  current : Option Nat
  progs : Nat → SoundEngine
  nextId : Nat
  audioInitialized : Bool
  transport : Transport
  events : List Ev

/-- A never-constructed program slot in the store. -/
def emptyProg : SoundEngine := ⟨"", [], []⟩

/-- Module state at load time: `currentEngine = null`,
`audioInitialized = false`, transport stopped and empty. -/
def initialSession : Session :=
  ⟨none, fun _ => emptyProg, 0, false, ⟨false, [], 0⟩, []⟩

/-- Point update of the program store. -/
def updProg (f : Nat → SoundEngine) (pid : Nat) (p : SoundEngine) : Nat → SoundEngine :=
  fun i => if i = pid then p else f i

/-- Embedding of `initProfileEngine` (profileEngine.js:13-23): returns `true` at once if
already initialized; otherwise awaits `Tone.start()` — outcome `ok` — and
either records success or returns `false` (it never throws). -/
def initProfileEngine (ok : Bool) (s : Session) : Bool × Session :=
  if s.audioInitialized then (true, s)
  else if ok then (true, { s with audioInitialized := true })
  else (false, s)

/-- Embedding of `if (currentEngine) { currentEngine.dispose(); currentEngine = null; }`
— shared by `createEngine` and `disposeEngine`. -/
def sessionDisposeCurrent (s : Session) : Session :=
  match s.current with
  | none => s
  | some pid =>
      let r := SoundEngine.dispose (s.progs pid) s.transport
      { s with progs := updProg s.progs pid r.1, transport := r.2,
               current := none, events := s.events ++ [Ev.disposeCall pid] }

/-- Embedding of `Tone.Transport.stop(); Tone.Transport.cancel(); Tone.Transport.position = 0;`
(profileEngine.js:1074-1076). -/
def transportReset (_t : Transport) : Transport :=
  { started := false, pending := [], position := 0 }

/-- Errors a `createEngine` promise can reject with: the audio-init failure
(`'Failed to initialize audio context'`), the unknown-profile-type error
(`` `Unknown profile type: ${config.type}` ``), or whatever error the new
program's `start()` rejected with. -/
inductive CreateErr
  | audioInit
  | unknownType (t : String)
  | startFailed
deriving DecidableEq, Repr

/-- Outcome of `await currentEngine.start()`: on success the variant
populated `components`/`loops` (and registered the loops on the transport);
on rejection, the resources it had created before the throw. -/
inductive StartOutcome
  | ok (components : List Component) (loops : List Nat)
  | fail (components : List Component) (loops : List Nat)

/-- Environment for one `createEngine` call: whether `Tone.start()` would
succeed, and how the new program's `start()` turns out. -/
structure CreateEnv where
  initOk : Bool
  startOutcome : StartOutcome

/-- Shallow embedding of `createEngine(profile)` (profileEngine.js:1060-1093),
step for step: dispose any current engine and clear the slot; await
`initProfileEngine()` and reject on failure; reset the transport; look up
`ENGINE_TYPES[config.type]` and reject if absent; assign
`currentEngine = new EngineClass(config)` (the slot now holds the new
program); await `currentEngine.start()` — a rejection propagates *without*
clearing `currentEngine`; finally `Tone.Transport.start()` and resolve. -/
def createEngine (profile : Profile) (env : CreateEnv) (s : Session) :
    Except CreateErr Nat × Session :=
  let s1 := sessionDisposeCurrent s
  let ir := initProfileEngine env.initOk s1
  if ir.1 = false then
    (Except.error CreateErr.audioInit, ir.2)
  else
    let s3 : Session := { ir.2 with transport := transportReset ir.2.transport }
    if ENGINE_TYPES.contains profile.config.type = false then
      (Except.error (CreateErr.unknownType profile.config.type), s3)
    else
      let pid := s3.nextId
      let s4 : Session := { s3 with
        current := some pid,
        progs := updProg s3.progs pid ⟨profile.config.type, [], []⟩,
        nextId := pid + 1,
        events := s3.events ++ [Ev.install pid] }
      match env.startOutcome with
      | StartOutcome.fail comps loops =>
          (Except.error CreateErr.startFailed,
           { s4 with
             progs := updProg s4.progs pid ⟨profile.config.type, comps, loops⟩,
             transport := { s4.transport with pending := s4.transport.pending ++ loops } })
      | StartOutcome.ok comps loops =>
          (Except.ok pid,
           { s4 with
             progs := updProg s4.progs pid ⟨profile.config.type, comps, loops⟩,
             transport := { s4.transport with
                            pending := s4.transport.pending ++ loops,
                            started := true } })

/-- Embedding of `stopEngine()` (profileEngine.js:1098-1103): stop the current engine if
any (the slot keeps it), then `Tone.Transport.stop()`. -/
def stopEngine (s : Session) : Session :=
  let s1 :=
    match s.current with
    | some pid =>
        let r := SoundEngine.stop (s.progs pid) s.transport
        { s with progs := updProg s.progs pid r.1, transport := r.2 }
    | none => s
  { s1 with transport := { s1.transport with started := false } }

/-- Embedding of `disposeEngine()` (profileEngine.js:1108-1115): dispose the current
engine if any and clear the slot, then `Tone.Transport.stop()` and
`Tone.Transport.cancel()`. -/
def disposeEngine (s : Session) : Session :=
  let s1 := sessionDisposeCurrent s
  { s1 with transport := { s1.transport with started := false, pending := [] } }

/-- Embedding of `getCurrentEngine()` (profileEngine.js:1120-1122). -/
def getCurrentEngine (s : Session) : Option Nat := s.current

/-- Whether a `createEngine` promise resolved. -/
def resultOk : Except CreateErr Nat → Bool
  | Except.ok _ => true
  | Except.error _ => false

/-- A finite sequence of `createEngine` calls, returning the final module
state and the list of call results in order. -/
def runSeq : Session → List (Profile × CreateEnv) → Session × List (Except CreateErr Nat)
  | s, [] => (s, [])
  | s, c :: cs =>
      let r := createEngine c.1 c.2 s
      let rest := runSeq r.2 cs
      (rest.1, r.1 :: rest.2)

/-- The module states reachable from load time through the exported
lifecycle operations. -/
inductive Reachable : Session → Prop
  | init : Reachable initialSession
  | create (profile : Profile) (env : CreateEnv) (s : Session) :
      Reachable s → Reachable (createEngine profile env s).2
  | stop (s : Session) : Reachable s → Reachable (stopEngine s)
  | dispose (s : Session) : Reachable s → Reachable (disposeEngine s)

/-- Invariant of reachable module states: when no program is active the
transport is stopped with nothing pending, and an active program implies
the audio subsystem was initialized. -/
def SessionInv (s : Session) : Prop :=
  (s.current = none → s.transport.started = false ∧ s.transport.pending = [])
  ∧ (∀ pid, s.current = some pid → s.audioInitialized = true)

/-- The event log produced by `k` successful `createEngine` calls from load
time: call 1 installs program 0; call `j+1` disposes program `j-1` and then
installs program `j`. -/
def evTrace : Nat → List Ev
  | 0 => []
  | k + 1 =>
      evTrace k ++ (match k with
        | 0 => [Ev.install 0]
        | j + 1 => [Ev.disposeCall j, Ev.install (j + 1)])

/-- A module state with one active program holding one component and one
scheduled loop (fixture for closed instances). -/
def sampleActiveSession : Session :=
  ⟨some 0, fun _ => ⟨"noise", [⟨7, true, false⟩], [5]⟩, 1, true, ⟨true, [5], 0⟩, []⟩

/-- Two `createEngine` calls that both succeed (fixture for closed
instances). -/
def sampleCalls : List (Profile × CreateEnv) :=
  [(SCIENCE_FOCUS, ⟨true, StartOutcome.ok [⟨1, true, false⟩] [3]⟩),
   (SCIENCE_FOCUS, ⟨true, StartOutcome.ok [⟨2, true, false⟩] [4]⟩)]

/-! ## Helper lemmas -/

lemma sessionDisposeCurrent_current (s : Session) :
    (sessionDisposeCurrent s).current = none := by
  cases h : s.current <;> simp [sessionDisposeCurrent, h]

lemma sessionDisposeCurrent_audioInitialized (s : Session) :
    (sessionDisposeCurrent s).audioInitialized = s.audioInitialized := by
  cases h : s.current <;> simp [sessionDisposeCurrent, h]

lemma sessionDisposeCurrent_nextId (s : Session) :
    (sessionDisposeCurrent s).nextId = s.nextId := by
  cases h : s.current <;> simp [sessionDisposeCurrent, h]

lemma sessionDisposeCurrent_events (s : Session) :
    (sessionDisposeCurrent s).events =
      s.events ++ (match s.current with
        | some q => [Ev.disposeCall q]
        | none => []) := by
  cases h : s.current <;> simp [sessionDisposeCurrent, h]

lemma sessionDisposeCurrent_progs_disposed (s : Session) (pid : Nat)
    (h : s.current = some pid) :
    ((sessionDisposeCurrent s).progs pid).components = []
  ∧ ((sessionDisposeCurrent s).progs pid).loops = [] := by
  simp [sessionDisposeCurrent, h, updProg, SoundEngine.dispose, SoundEngine.stop]

lemma initProfileEngine_current (ok : Bool) (s : Session) :
    (initProfileEngine ok s).2.current = s.current := by
  by_cases h1 : s.audioInitialized <;> by_cases h2 : ok <;>
    simp [initProfileEngine, h1, h2]

lemma initProfileEngine_progs (ok : Bool) (s : Session) :
    (initProfileEngine ok s).2.progs = s.progs := by
  by_cases h1 : s.audioInitialized <;> by_cases h2 : ok <;>
    simp [initProfileEngine, h1, h2]

lemma initProfileEngine_nextId (ok : Bool) (s : Session) :
    (initProfileEngine ok s).2.nextId = s.nextId := by
  by_cases h1 : s.audioInitialized <;> by_cases h2 : ok <;>
    simp [initProfileEngine, h1, h2]

lemma initProfileEngine_events (ok : Bool) (s : Session) :
    (initProfileEngine ok s).2.events = s.events := by
  by_cases h1 : s.audioInitialized <;> by_cases h2 : ok <;>
    simp [initProfileEngine, h1, h2]

lemma initProfileEngine_fst (ok : Bool) (s : Session)
    (h : s.audioInitialized = true ∨ ok = true) :
    (initProfileEngine ok s).1 = true := by
  by_cases h1 : s.audioInitialized <;> by_cases h2 : ok <;>
    simp_all [initProfileEngine]

lemma initProfileEngine_initialized_of_fst (ok : Bool) (s : Session)
    (h : (initProfileEngine ok s).1 = true) :
    (initProfileEngine ok s).2.audioInitialized = true := by
  by_cases h1 : s.audioInitialized <;> by_cases h2 : ok <;>
    simp_all [initProfileEngine]

/-! ## Claim theorems -/

/-- C5: for every `SoundEngine` in every state, `stop()` removes no entry
from the `components` or `loops` list — both lists hold exactly the same
entries (same length, same object identities in the same order) before and
after, and `stop()` disposes no component — while the lists, once
populated, are emptied by `dispose()`. -/
theorem stop_preserves_lists (e : SoundEngine) (t : Transport) :
    ((SoundEngine.stop e t).1.components.map Component.id = e.components.map Component.id)
  ∧ ((SoundEngine.stop e t).1.components.map Component.disposed
      = e.components.map Component.disposed)
  ∧ ((SoundEngine.stop e t).1.components.length = e.components.length)
  ∧ ((SoundEngine.stop e t).1.loops = e.loops)
  ∧ ((SoundEngine.dispose e t).1.components = [] ∧ (SoundEngine.dispose e t).1.loops = []) := by
  refine ⟨?_, ?_, ?_, rfl, rfl, rfl⟩ <;>
    simp [SoundEngine.stop, List.map_map, Function.comp]

/-- C6: after `disposeEngine()` on a session with an active program, the
disposed program's `components` and `loops` lists are both empty and the
Transport has zero pending scheduled generators. -/
theorem disposeEngine_completeness (s : Session) (pid : Nat) (h : s.current = some pid) :
    ((disposeEngine s).progs pid).components = []
  ∧ ((disposeEngine s).progs pid).loops = []
  ∧ (disposeEngine s).transport.pending = [] := by
  simp [disposeEngine, sessionDisposeCurrent, h, updProg, SoundEngine.dispose, SoundEngine.stop]

/-- Witness for C6 at a concrete active session. -/
theorem disposeEngine_completeness_witness :
    ((disposeEngine sampleActiveSession).progs 0).components = []
  ∧ ((disposeEngine sampleActiveSession).progs 0).loops = []
  ∧ (disposeEngine sampleActiveSession).transport.pending = [] :=
  disposeEngine_completeness sampleActiveSession 0 rfl

/-- C2 is false on the code: when the reverb impulse-generation step fails
inside `createMasterChain` (here with high-pass, low-pass, bit-crusher and
delay all requested), no handle is returned, but the primitives already
created before the failure are NOT released — the Builder has no cleanup
path, so the limiter (creation index 0) is left dangling. -/
theorem masterChain_failure_release_cex :
    (createMasterChain ⟨true, some 100, some 2000, some 6⟩ false).handle = none
  ∧ ¬ (∀ nd ∈ (createMasterChain ⟨true, some 100, some 2000, some 6⟩ false).created,
        nd.idx ∈ (createMasterChain ⟨true, some 100, some 2000, some 6⟩ false).released) := by
  decide

/-- C2 (amended): if the reverb impulse-generation step fails inside
`createMasterChain`, the build returns no handle, but the primitives the
Builder had already created (the limiter first among them, plus any
requested filters and bit-crusher and the reverb node itself) are not
released before the error propagates: the Builder performs no release at
all and the partially built nodes are left dangling. -/
theorem masterChain_failure_no_release (opts : ChainOptions) :
    (createMasterChain opts false).handle = none
  ∧ (createMasterChain opts false).released = []
  ∧ (createMasterChain opts false).created.head?
      = some ⟨0, NodeKind.limiter, ConnTarget.destination⟩
  ∧ (createMasterChain opts false).created ≠ [] := by
  cases h1 : truthy opts.highPass <;> cases h2 : truthy opts.lowPass <;>
    cases h3 : truthy opts.bitCrush <;>
      simp [createMasterChain, stepIf, pushNode, h1, h2, h3]

/-- C3 is false on the code's schedule: phasing generator 0 (period 17,
offset 0) and phasing generator 2 (period 23, offset 4) both trigger at
t = 119 s, strictly earlier than 323 s. -/
theorem phasing_collision_cex :
    triggerTime SCIENCE_FOCUS.config 0 7 = triggerTime SCIENCE_FOCUS.config 2 5
  ∧ triggerTime SCIENCE_FOCUS.config 0 7 < 323
  ∧ (0 : Nat) ≠ 2 := by
  decide

/-- C3 (amended): for the Science Focus program's phasing generators
(periods 17, 19, 23, 29, 31 s; start offsets 0, 2, 4, 6, 8 s; generator `i`
triggering at `offset i + k * period i`), no two distinct generators have an
equal scheduled trigger time at any instant strictly earlier than 119
seconds (the first coincidence, of generators 0 and 2, is at 119 s — not at
17 × 19 = 323 s as claimed). -/
theorem phasing_no_collision_before_119 (i j k m : Nat)
    (hi : i < 5) (hj : j < 5) (hij : i ≠ j)
    (heq : triggerTime SCIENCE_FOCUS.config i k = triggerTime SCIENCE_FOCUS.config j m) :
    119 ≤ triggerTime SCIENCE_FOCUS.config i k := by
  by_contra hlt
  push_neg at hlt
  have hpi : 17 ≤ phasingPeriod SCIENCE_FOCUS.config i := by
    interval_cases i <;> decide
  have hpj : 17 ≤ phasingPeriod SCIENCE_FOCUS.config j := by
    interval_cases j <;> decide
  have hk1 : k * 17 ≤ phasingOffset i + k * phasingPeriod SCIENCE_FOCUS.config i := by
    calc k * 17 ≤ k * phasingPeriod SCIENCE_FOCUS.config i := Nat.mul_le_mul_left k hpi
    _ ≤ phasingOffset i + k * phasingPeriod SCIENCE_FOCUS.config i := Nat.le_add_left _ _
  have hm1 : m * 17 ≤ phasingOffset j + m * phasingPeriod SCIENCE_FOCUS.config j := by
    calc m * 17 ≤ m * phasingPeriod SCIENCE_FOCUS.config j := Nat.mul_le_mul_left m hpj
    _ ≤ phasingOffset j + m * phasingPeriod SCIENCE_FOCUS.config j := Nat.le_add_left _ _
  have hk2 : k * 17 < 119 := by
    have := hlt
    simp only [triggerTime] at this
    omega
  have hm2 : m * 17 < 119 := by
    have h' : triggerTime SCIENCE_FOCUS.config j m < 119 := heq ▸ hlt
    simp only [triggerTime] at h'
    omega
  have hk7 : k < 7 := by omega
  have hm7 : m < 7 := by omega
  have hfin : ∀ i' : Fin 5, ∀ j' : Fin 5, ∀ k' : Fin 7, ∀ m' : Fin 7,
      i'.val ≠ j'.val →
      ¬(triggerTime SCIENCE_FOCUS.config i'.val k'.val
          = triggerTime SCIENCE_FOCUS.config j'.val m'.val
        ∧ triggerTime SCIENCE_FOCUS.config i'.val k'.val < 119) := by
    decide
  exact hfin ⟨i, hi⟩ ⟨j, hj⟩ ⟨k, hk7⟩ ⟨m, hm7⟩ hij ⟨heq, hlt⟩

/-- Witness for the amended C3 at the first coincidence. -/
theorem phasing_no_collision_before_119_witness :
    (0 : Nat) < 5 ∧ (2 : Nat) < 5 ∧ (0 : Nat) ≠ 2
  ∧ triggerTime SCIENCE_FOCUS.config 0 7 = triggerTime SCIENCE_FOCUS.config 2 5
  ∧ 119 ≤ triggerTime SCIENCE_FOCUS.config 0 7 :=
  ⟨by decide, by decide, by decide, by decide,
   phasing_no_collision_before_119 0 2 7 5 (by decide) (by decide) (by decide) (by decide)⟩

/-- C9: for every options record, `createMasterChain` builds the chain in
the fixed order and topology: the limiter is created first and connects to
the destination; the created kinds follow the order limiter, high-pass (if
requested), low-pass (if requested), bit-crusher (if requested), reverb,
delay (if requested); creation indices coincide with positions and every
node after the first connects into the node created just before it (so the
filters are chained before the limiter and the bit-crusher precedes the
filters); the handle exists exactly when impulse generation completed; and
the delay, when requested, connects into the reverb node rather than into
the limiter. -/
theorem masterChain_topology (opts : ChainOptions) :
    ((createMasterChain opts true).created.map ChainNode.kind
      = [NodeKind.limiter]
        ++ (if truthy opts.highPass then [NodeKind.highpass] else [])
        ++ (if truthy opts.lowPass then [NodeKind.lowpass] else [])
        ++ (if truthy opts.bitCrush then [NodeKind.bitCrusher] else [])
        ++ [NodeKind.reverb]
        ++ (if opts.delay then [NodeKind.pingPongDelay] else []))
  ∧ ((createMasterChain opts true).created.map ChainNode.idx
      = List.range (createMasterChain opts true).created.length)
  ∧ ((createMasterChain opts true).created.head?
      = some ⟨0, NodeKind.limiter, ConnTarget.destination⟩)
  ∧ (∀ nd ∈ (createMasterChain opts true).created,
      nd.target = if nd.idx = 0 then ConnTarget.destination
                  else ConnTarget.node (nd.idx - 1))
  ∧ ((createMasterChain opts true).handle = some (handleOf opts))
  ∧ ((createMasterChain opts true).reverbGenerated = true)
  ∧ ((createMasterChain opts false).handle = none)
  ∧ ((handleOf opts).limiter = 0)
  ∧ (nodeAt (createMasterChain opts true) (handleOf opts).reverb
      = some ⟨(handleOf opts).reverb, NodeKind.reverb,
              ConnTarget.node ((handleOf opts).reverb - 1)⟩)
  ∧ (opts.delay = true → ∃ d, (handleOf opts).delay = some d
      ∧ nodeAt (createMasterChain opts true) d
          = some ⟨d, NodeKind.pingPongDelay, ConnTarget.node (handleOf opts).reverb⟩) := by
  cases h1 : truthy opts.highPass <;> cases h2 : truthy opts.lowPass <;>
    cases h3 : truthy opts.bitCrush <;> cases h4 : opts.delay <;>
      simp [createMasterChain, stepIf, pushNode, handleOf, nodeAt, h1, h2, h3, h4] <;>
        decide

/-- Witness for C9, discharging the delay conjunct at a fully-requested
options record. -/
theorem masterChain_topology_witness :
    ∃ d, (handleOf ⟨true, some 100, some 2000, some 6⟩).delay = some d
  ∧ nodeAt (createMasterChain ⟨true, some 100, some 2000, some 6⟩ true) d
      = some ⟨d, NodeKind.pingPongDelay,
              ConnTarget.node (handleOf ⟨true, some 100, some 2000, some 6⟩).reverb⟩ :=
  (masterChain_topology ⟨true, some 100, some 2000, some 6⟩).2.2.2.2.2.2.2.2.2 rfl

/-- Helper for C10: `createEngine` rejects with the unknown-profile-type
error only when the profile's type is not registered. -/
lemma createEngine_unknown_err (profile : Profile) (env : CreateEnv) (s : Session)
    (t : String) (s' : Session)
    (h : createEngine profile env s = (Except.error (CreateErr.unknownType t), s')) :
    ENGINE_TYPES.contains profile.config.type = false := by
  rcases env with ⟨io, so⟩
  cases so <;>
  · simp only [createEngine] at h
    split at h
    · simp at h
    · split at h
      · next hc => exact hc
      · simp at h

/-- C10: every profile of the shipped `SOUND_PROFILES` catalog has a
`config.type` registered in `ENGINE_TYPES`, so `createEngine` applied to a
catalog profile never takes the unknown-profile-type error branch. -/
theorem catalog_types_registered (p : Profile) (hp : p ∈ SOUND_PROFILES) :
    ENGINE_TYPES.contains p.config.type = true
  ∧ ∀ (env : CreateEnv) (s s' : Session) (t : String),
      createEngine p env s ≠ (Except.error (CreateErr.unknownType t), s') := by
  have hc : ENGINE_TYPES.contains p.config.type = true := by
    have hall : ∀ q ∈ SOUND_PROFILES, ENGINE_TYPES.contains q.config.type = true := by
      decide
    exact hall p hp
  refine ⟨hc, ?_⟩
  intro env s s' t hcontra
  have hfalse := createEngine_unknown_err p env s t s' hcontra
  rw [hc] at hfalse
  simp at hfalse

/-- Witness for C10 at the catalog's first entry. -/
theorem catalog_types_registered_witness :
    ENGINE_TYPES.contains SCIENCE_FOCUS.config.type = true
  ∧ ∀ (env : CreateEnv) (s s' : Session) (t : String),
      createEngine SCIENCE_FOCUS env s ≠ (Except.error (CreateErr.unknownType t), s') :=
  catalog_types_registered SCIENCE_FOCUS (by decide)

/-- C1 is false on the code: when the new program's `start()` rejects (on
the very first `createEngine` call, with audio init succeeding), the
returned promise rejects but `currentEngine` still holds the
partially-started program — `getCurrentEngine()` returns it, not none,
because `createEngine` assigns the slot before awaiting `start()` and has
no handler clearing it. -/
theorem start_failure_keeps_program_cex :
    (createEngine SCIENCE_FOCUS ⟨true, StartOutcome.fail [] []⟩ initialSession).1
      = Except.error CreateErr.startFailed
  ∧ getCurrentEngine
      (createEngine SCIENCE_FOCUS ⟨true, StartOutcome.fail [] []⟩ initialSession).2
      = some 0 := by
  constructor <;> rfl

/-- C1 (amended): when `createEngine(profile)` rejects with the
audio-initialization failure or the unknown-profile-type error, the session
is left with no active program; but when it rejects because the new
program's asynchronous `start()` failed, the partially-started program
remains installed as the active program (it is the one constructed in this
call, id `s.nextId`). -/
theorem createEngine_error_state (profile : Profile) (env : CreateEnv) (s : Session)
    (e : CreateErr) (s' : Session)
    (h : createEngine profile env s = (Except.error e, s')) :
    (e ≠ CreateErr.startFailed → getCurrentEngine s' = none)
  ∧ (e = CreateErr.startFailed → getCurrentEngine s' = some s.nextId) := by
  rcases env with ⟨io, so⟩
  cases so <;>
  · simp only [createEngine] at h
    split at h
    · rw [Prod.mk.injEq] at h
      obtain ⟨he, hs⟩ := h
      injection he with he
      subst he hs
      constructor
      · intro _
        simp [getCurrentEngine, initProfileEngine_current, sessionDisposeCurrent_current]
      · intro hcontra
        exact absurd hcontra (by simp)
    · split at h
      · rw [Prod.mk.injEq] at h
        obtain ⟨he, hs⟩ := h
        injection he with he
        subst he hs
        constructor
        · intro _
          simp [getCurrentEngine, initProfileEngine_current, sessionDisposeCurrent_current]
        · intro hcontra
          exact absurd hcontra (by simp)
      · first
        | (rw [Prod.mk.injEq] at h
           obtain ⟨he, hs⟩ := h
           injection he with he
           subst he hs
           refine ⟨fun hne => absurd rfl hne, fun _ => ?_⟩
           simp [getCurrentEngine, initProfileEngine_nextId, sessionDisposeCurrent_nextId])
        | simp at h

/-- Witness for the amended C1: a failing `start()` on the first call
leaves program 0 installed. -/
theorem createEngine_error_state_witness :
    (CreateErr.startFailed ≠ CreateErr.startFailed →
      getCurrentEngine
        (createEngine SCIENCE_FOCUS ⟨true, StartOutcome.fail [] [9]⟩ initialSession).2 = none)
  ∧ (CreateErr.startFailed = CreateErr.startFailed →
      getCurrentEngine
        (createEngine SCIENCE_FOCUS ⟨true, StartOutcome.fail [] [9]⟩ initialSession).2
        = some initialSession.nextId) :=
  createEngine_error_state SCIENCE_FOCUS ⟨true, StartOutcome.fail [] [9]⟩ initialSession
    CreateErr.startFailed
    (createEngine SCIENCE_FOCUS ⟨true, StartOutcome.fail [] [9]⟩ initialSession).2 rfl

/-- C7: for every profile whose `config.type` is not one of the 8
registered variant tags, `createEngine(profile)` (with the audio subsystem
able to initialize) rejects with the unknown-profile-type error and leaves
no active program: the prior program, if any, was already disposed (its
lists are empty) and the active slot is empty. -/
theorem unknown_type_rejection (profile : Profile) (env : CreateEnv) (s : Session)
    (hty : ENGINE_TYPES.contains profile.config.type = false)
    (hinit : s.audioInitialized = true ∨ env.initOk = true) :
    (createEngine profile env s).1
      = Except.error (CreateErr.unknownType profile.config.type)
  ∧ getCurrentEngine (createEngine profile env s).2 = none
  ∧ (∀ q, s.current = some q →
      ((createEngine profile env s).2.progs q).components = []
    ∧ ((createEngine profile env s).2.progs q).loops = []) := by
  have hfst : (initProfileEngine env.initOk (sessionDisposeCurrent s)).1 = true := by
    apply initProfileEngine_fst
    rcases hinit with h | h
    · left
      rw [sessionDisposeCurrent_audioInitialized]
      exact h
    · right
      exact h
  simp only [createEngine, hfst]
  simp only [hty]
  refine ⟨by simp, ?_, ?_⟩
  · simp [getCurrentEngine, initProfileEngine_current, sessionDisposeCurrent_current]
  · intro q hq
    have hd := sessionDisposeCurrent_progs_disposed s q hq
    simp only [initProfileEngine_progs]
    exact hd

lemma sessionDisposeCurrent_none (s : Session) (h : s.current = none) :
    sessionDisposeCurrent s = s := by
  simp [sessionDisposeCurrent, h]

lemma initProfileEngine_transport (ok : Bool) (s : Session) :
    (initProfileEngine ok s).2.transport = s.transport := by
  by_cases h1 : s.audioInitialized <;> by_cases h2 : ok <;>
    simp [initProfileEngine, h1, h2]

lemma transport_stop_eta (t : Transport) (h : t.started = false) :
    ({ t with started := false } : Transport) = t := by
  cases t
  simp_all

lemma transport_stopcancel_eta (t : Transport) (h1 : t.started = false)
    (h2 : t.pending = []) :
    ({ t with started := false, pending := [] } : Transport) = t := by
  cases t
  simp_all

/-- Every reachable module state satisfies `SessionInv`. -/
lemma reachable_inv (s : Session) (h : Reachable s) : SessionInv s := by
  induction h with
  | init =>
      exact ⟨fun _ => ⟨rfl, rfl⟩, fun pid hpid => by simp [initialSession] at hpid⟩
  | stop s hs ih =>
      cases hc : s.current with
      | none =>
          refine ⟨fun _ => ⟨rfl, ?_⟩, fun pid hpid => ?_⟩
          · simp only [stopEngine, hc]
            exact ((ih.1 hc).2)
          · simp [stopEngine, hc] at hpid
      | some pid =>
          refine ⟨fun hnone => ?_, fun pid' _ => ?_⟩
          · simp [stopEngine, hc] at hnone
          · simp only [stopEngine, hc]
            exact ih.2 pid hc
  | dispose s hs ih =>
      refine ⟨fun _ => ⟨rfl, rfl⟩, fun pid hpid => ?_⟩
      simp only [disposeEngine] at hpid
      rw [sessionDisposeCurrent_current] at hpid
      exact Option.noConfusion hpid
  | create profile env s hs ih =>
      rcases env with ⟨io, so⟩
      cases so with
      | ok comps loops =>
          simp only [createEngine]
          split
          · next hA =>
              cases hc : s.current with
              | none =>
                  have hseq := sessionDisposeCurrent_none s hc
                  refine ⟨fun _ => ?_, fun pid hpid => ?_⟩
                  · rw [initProfileEngine_transport, hseq]
                    exact ih.1 hc
                  · rw [initProfileEngine_current, sessionDisposeCurrent_current] at hpid
                    exact Option.noConfusion hpid
              | some pid =>
                  exfalso
                  have ha : s.audioInitialized = true := ih.2 pid hc
                  have htrue : (initProfileEngine io (sessionDisposeCurrent s)).1 = true := by
                    apply initProfileEngine_fst
                    left
                    rw [sessionDisposeCurrent_audioInitialized]
                    exact ha
                  rw [htrue] at hA
                  exact Bool.noConfusion hA
          · split
            · next hB =>
                refine ⟨fun _ => ⟨rfl, rfl⟩, fun pid hpid => ?_⟩
                simp only at hpid
                rw [initProfileEngine_current, sessionDisposeCurrent_current] at hpid
                exact Option.noConfusion hpid
            · next hB =>
                next hA =>
                  have htrue : (initProfileEngine io (sessionDisposeCurrent s)).1 = true := by
                    revert hA
                    cases (initProfileEngine io (sessionDisposeCurrent s)).1 <;> simp
                  refine ⟨fun hnone => ?_, fun pid' _ => ?_⟩
                  · simp at hnone
                  · simp only
                    exact initProfileEngine_initialized_of_fst io (sessionDisposeCurrent s) htrue
      | fail comps loops =>
          simp only [createEngine]
          split
          · next hA =>
              cases hc : s.current with
              | none =>
                  have hseq := sessionDisposeCurrent_none s hc
                  refine ⟨fun _ => ?_, fun pid hpid => ?_⟩
                  · rw [initProfileEngine_transport, hseq]
                    exact ih.1 hc
                  · rw [initProfileEngine_current, sessionDisposeCurrent_current] at hpid
                    exact Option.noConfusion hpid
              | some pid =>
                  exfalso
                  have ha : s.audioInitialized = true := ih.2 pid hc
                  have htrue : (initProfileEngine io (sessionDisposeCurrent s)).1 = true := by
                    apply initProfileEngine_fst
                    left
                    rw [sessionDisposeCurrent_audioInitialized]
                    exact ha
                  rw [htrue] at hA
                  exact Bool.noConfusion hA
          · split
            · next hB =>
                refine ⟨fun _ => ⟨rfl, rfl⟩, fun pid hpid => ?_⟩
                simp only at hpid
                rw [initProfileEngine_current, sessionDisposeCurrent_current] at hpid
                exact Option.noConfusion hpid
            · next hB =>
                next hA =>
                  have htrue : (initProfileEngine io (sessionDisposeCurrent s)).1 = true := by
                    revert hA
                    cases (initProfileEngine io (sessionDisposeCurrent s)).1 <;> simp
                  refine ⟨fun hnone => ?_, fun pid' _ => ?_⟩
                  · simp at hnone
                  · simp only
                    exact initProfileEngine_initialized_of_fst io (sessionDisposeCurrent s) htrue

/-- C8: on every reachable module state with no active program,
`stopEngine()` and `disposeEngine()` are no-ops (they return normally and
leave the state unchanged); and `dispose()` is idempotent on every program:
a second `dispose()` leaves the program state and the transport exactly as
the first left them (lists stay empty, nothing further is released). -/
theorem lifecycle_idempotence (s : Session) (e : SoundEngine) (t : Transport) :
    (Reachable s → s.current = none → stopEngine s = s ∧ disposeEngine s = s)
  ∧ SoundEngine.dispose (SoundEngine.dispose e t).1 (SoundEngine.dispose e t).2
      = SoundEngine.dispose e t := by
  constructor
  · intro hr hc
    obtain ⟨hstart, hpend⟩ := (reachable_inv s hr).1 hc
    constructor
    · simp only [stopEngine, hc]
      rw [transport_stop_eta s.transport hstart]
      rw [← hc]
    · simp only [disposeEngine, sessionDisposeCurrent_none s hc]
      rw [transport_stopcancel_eta s.transport hstart hpend]
  · simp [SoundEngine.dispose, SoundEngine.stop]

/-- Witness for C8 at the load-time state (reachable, no active program)
and a concrete program. -/
theorem lifecycle_idempotence_witness :
    (stopEngine initialSession = initialSession
      ∧ disposeEngine initialSession = initialSession)
  ∧ SoundEngine.dispose
      (SoundEngine.dispose ⟨"rain", [⟨1, true, false⟩], [2]⟩ ⟨true, [2], 0⟩).1
      (SoundEngine.dispose ⟨"rain", [⟨1, true, false⟩], [2]⟩ ⟨true, [2], 0⟩).2
    = SoundEngine.dispose ⟨"rain", [⟨1, true, false⟩], [2]⟩ ⟨true, [2], 0⟩ :=
  ⟨(lifecycle_idempotence initialSession ⟨"rain", [⟨1, true, false⟩], [2]⟩
      ⟨true, [2], 0⟩).1 Reachable.init rfl,
   (lifecycle_idempotence initialSession ⟨"rain", [⟨1, true, false⟩], [2]⟩
      ⟨true, [2], 0⟩).2⟩

/-- Witness for C7: an unregistered type on a fresh session. -/
theorem unknown_type_rejection_witness :
    (createEngine ⟨"bogus", ⟨"not_a_real_type", none⟩⟩ ⟨true, StartOutcome.ok [] []⟩
        initialSession).1
      = Except.error (CreateErr.unknownType "not_a_real_type")
  ∧ getCurrentEngine
      (createEngine ⟨"bogus", ⟨"not_a_real_type", none⟩⟩ ⟨true, StartOutcome.ok [] []⟩
        initialSession).2 = none
  ∧ (∀ q, initialSession.current = some q →
      ((createEngine ⟨"bogus", ⟨"not_a_real_type", none⟩⟩ ⟨true, StartOutcome.ok [] []⟩
          initialSession).2.progs q).components = []
    ∧ ((createEngine ⟨"bogus", ⟨"not_a_real_type", none⟩⟩ ⟨true, StartOutcome.ok [] []⟩
          initialSession).2.progs q).loops = []) :=
  unknown_type_rejection ⟨"bogus", ⟨"not_a_real_type", none⟩⟩ ⟨true, StartOutcome.ok [] []⟩
    initialSession (by decide) (Or.inr rfl)

lemma resultOk_exists (r : Except CreateErr Nat) (h : resultOk r = true) :
    ∃ pid, r = Except.ok pid := by
  cases r <;> simp_all [resultOk]

/-- Shape of a successful `createEngine` call: the new program gets the
next fresh id, it is installed as current, and the event log gains the
dispose of the previous current program (if any) followed by the install
of the new one, in that order. -/
lemma createEngine_ok_shape (profile : Profile) (env : CreateEnv) (s : Session)
    (pid : Nat) (s' : Session)
    (h : createEngine profile env s = (Except.ok pid, s')) :
    s'.current = some s.nextId ∧ s'.nextId = s.nextId + 1
  ∧ s'.events = s.events ++ (match s.current with
      | some q => [Ev.disposeCall q]
      | none => []) ++ [Ev.install s.nextId] := by
  rcases env with ⟨io, so⟩
  cases so with
  | fail comps loops =>
      exfalso
      simp only [createEngine] at h
      split at h
      · simp at h
      · split at h
        · simp at h
        · simp at h
  | ok comps loops =>
      simp only [createEngine] at h
      split at h
      · simp at h
      · split at h
        · simp at h
        · rw [Prod.mk.injEq] at h
          obtain ⟨hr, hs⟩ := h
          subst hs
          refine ⟨?_, ?_, ?_⟩
          · simp [initProfileEngine_nextId, sessionDisposeCurrent_nextId]
          · simp [initProfileEngine_nextId, sessionDisposeCurrent_nextId]
          · simp [initProfileEngine_events, sessionDisposeCurrent_events,
                  initProfileEngine_nextId, sessionDisposeCurrent_nextId]

lemma runSeq_append (as bs : List (Profile × CreateEnv)) (s : Session) :
    runSeq s (as ++ bs)
      = ((runSeq (runSeq s as).1 bs).1, (runSeq s as).2 ++ (runSeq (runSeq s as).1 bs).2) := by
  induction as generalizing s with
  | nil => simp [runSeq]
  | cons c cs ih => simp [runSeq, ih]

/-- State characterization after `k` successful `createEngine` calls from
load time: the event log is exactly `evTrace k`, ids are `0..k-1`, and
program `k-1` is the active one. -/
lemma runSeq_ok_inv (calls : List (Profile × CreateEnv))
    (hok : ∀ r ∈ (runSeq initialSession calls).2, resultOk r = true) :
    ∀ k, k ≤ calls.length →
      ((runSeq initialSession (calls.take k)).1.events = evTrace k)
    ∧ ((runSeq initialSession (calls.take k)).1.nextId = k)
    ∧ ((runSeq initialSession (calls.take k)).1.current
        = match k with
          | 0 => none
          | Nat.succ j => some j) := by
  intro k
  induction k with
  | zero =>
      intro _
      exact ⟨rfl, rfl, rfl⟩
  | succ k ih =>
      intro hk
      have hlt : k < calls.length := hk
      obtain ⟨he, hn, hc⟩ := ih (Nat.le_of_succ_le hk)
      have htake : calls.take (k + 1) = calls.take k ++ [calls[k]] :=
        (List.take_concat_get' calls k hlt).symm
      have hsplit := runSeq_append (calls.take k) [calls[k]] initialSession
      have hres : resultOk (createEngine calls[k].1 calls[k].2
          (runSeq initialSession (calls.take k)).1).1 = true := by
        apply hok
        have hfull : calls = calls.take (k + 1) ++ calls.drop (k + 1) :=
          (List.take_append_drop (k + 1) calls).symm
        have hsplit2 : (runSeq initialSession calls).2
            = (runSeq initialSession (calls.take (k + 1))).2
              ++ (runSeq (runSeq initialSession (calls.take (k + 1))).1
                    (calls.drop (k + 1))).2 := by
          conv_lhs => rw [hfull, runSeq_append]
        rw [hsplit2]
        apply List.mem_append_left
        rw [htake, hsplit]
        apply List.mem_append_right
        simp [runSeq]
      obtain ⟨pid, hpid⟩ := resultOk_exists _ hres
      have hpair : createEngine calls[k].1 calls[k].2
            (runSeq initialSession (calls.take k)).1
          = (Except.ok pid,
             (createEngine calls[k].1 calls[k].2
               (runSeq initialSession (calls.take k)).1).2) := by
        rw [← hpid]
      obtain ⟨hc', hn', he'⟩ := createEngine_ok_shape _ _ _ _ _ hpair
      have hstep : (runSeq initialSession (calls.take (k + 1))).1
          = (createEngine calls[k].1 calls[k].2
              (runSeq initialSession (calls.take k)).1).2 := by
        rw [htake, hsplit]
        simp [runSeq]
      rw [hstep]
      refine ⟨?_, ?_, ?_⟩
      · rw [he', he, hn, hc]
        cases k with
        | zero => rfl
        | succ j =>
            show evTrace (j + 1) ++ [Ev.disposeCall j] ++ [Ev.install (j + 1)]
              = evTrace (j + 2)
            rw [evTrace]
            simp
      · rw [hn', hn]
      · rw [hc', hn]

lemma evTrace_count (k j : Nat) :
    (evTrace k).count (Ev.disposeCall j) = if j + 1 < k then 1 else 0 := by
  induction k with
  | zero => simp [evTrace]
  | succ k ih =>
      cases k with
      | zero =>
          simp [evTrace, List.count_append, List.count_cons, List.count_nil]
      | succ j' =>
          rw [evTrace, List.count_append, ih]
          have hblock : ([Ev.disposeCall j', Ev.install (j' + 1)]).count (Ev.disposeCall j)
              = if j' = j then 1 else 0 := by
            by_cases hj : j' = j <;>
              simp [List.count_cons, List.count_nil, hj]
          rw [hblock]
          split_ifs <;> omega

lemma evTrace_order (k j : Nat) (h : j + 1 < k) :
    ∃ l1 l2, evTrace k = l1 ++ Ev.disposeCall j :: Ev.install (j + 1) :: l2 := by
  induction k with
  | zero => omega
  | succ k ih =>
      cases k with
      | zero => omega
      | succ j' =>
          by_cases hk : j + 1 < j' + 1
          · obtain ⟨l1, l2, hl⟩ := ih hk
            refine ⟨l1, l2 ++ [Ev.disposeCall j', Ev.install (j' + 1)], ?_⟩
            rw [evTrace, hl]
            simp
          · have hj : j = j' := by omega
            subst hj
            refine ⟨evTrace (j + 1), [], ?_⟩
            rw [evTrace]

/-- C4: for any finite sequence of `createEngine` calls that all complete
successfully, after each call exactly one program is installed as active
(the most recently created one), every previously active program has had
`dispose()` called on it exactly once, and in the event order that disposal
happened immediately before the successor program was installed. -/
theorem createEngine_sequence_dispose_once (calls : List (Profile × CreateEnv))
    (hok : ∀ r ∈ (runSeq initialSession calls).2, resultOk r = true)
    (k : Nat) (hk : k ≤ calls.length) (hk0 : 0 < k) :
    getCurrentEngine (runSeq initialSession (calls.take k)).1 = some (k - 1)
  ∧ (∀ j, j + 1 < k →
      ((runSeq initialSession (calls.take k)).1.events.count (Ev.disposeCall j) = 1))
  ∧ (∀ j, j + 1 < k →
      ∃ l1 l2, (runSeq initialSession (calls.take k)).1.events
        = l1 ++ Ev.disposeCall j :: Ev.install (j + 1) :: l2) := by
  obtain ⟨he, hn, hc⟩ := runSeq_ok_inv calls hok k hk
  refine ⟨?_, ?_, ?_⟩
  · cases k with
    | zero => omega
    | succ j => simpa [getCurrentEngine] using hc
  · intro j hj
    rw [he, evTrace_count]
    simp [hj]
  · intro j hj
    rw [he]
    exact evTrace_order k j hj

/-- Witness for C4: two successful calls; after the second, program 1 is
active and program 0 was disposed exactly once, right before install 1. -/
theorem createEngine_sequence_dispose_once_witness :
    getCurrentEngine (runSeq initialSession (sampleCalls.take 2)).1 = some 1
  ∧ (∀ j, j + 1 < 2 →
      ((runSeq initialSession (sampleCalls.take 2)).1.events.count (Ev.disposeCall j) = 1))
  ∧ (∀ j, j + 1 < 2 →
      ∃ l1 l2, (runSeq initialSession (sampleCalls.take 2)).1.events
        = l1 ++ Ev.disposeCall j :: Ev.install (j + 1) :: l2) :=
  createEngine_sequence_dispose_once sampleCalls (by decide) 2 (by decide) (by decide)

end LetsFocus
